import Mathlib

/-! # KinectLogger main window

A shallow embedding of `example/KinectLogger/mainwindow.cpp`.  Every slot of
`MainWindow` is a pure function from the window state (and the values handed
back by its collaborators during the call) to the new window state together
with the ordered list of calls the slot makes on its collaborators: the sensor
reader `kreader`, the writer `writer`, the key filter `ke`, the timer and the
Qt widgets that are not plain label texts.

* `QString` is `String`; `QString::arg` is `arg`, which substitutes the place
  marker `%1`.
* C `int` is `Int`, `rv&1` is `Int.land rv 1`; `unsigned` and `quint16` are
  `Nat` (no arithmetic is done on them, so no wrap-around is involved).
* `double` is an abstract type `R`; images are an abstract type `Img`; the
  OpenNI frame counter is an abstract type `FPS`; a tracked body is an abstract
  type `B`.
-/

namespace KinectLogger

/-! ## Strings -/

/-- Qt string, as a Lean string. -/
abbrev QString := String

/-- Substitution of the place marker `%1` by `a`, on character lists.  This is
the fragment of `QString::arg` the window uses: each of its format strings has
the single marker `%1`, not followed by a digit; the argument is inserted as it
is and is not scanned again. -/
def argChars : List Char → List Char → List Char
  | '%' :: '1' :: rest, a => a ++ argChars rest a
  | c :: rest, a => c :: argChars rest a
  | [], _ => []

/-- The call `QString(fmt).arg(a)` for a string argument. -/
def arg (fmt a : QString) : QString := ⟨argChars fmt.data a.data⟩

/-- The call `QString(fmt).arg(n)` for an unsigned argument: decimal rendering. -/
def argNat (fmt : QString) (n : Nat) : QString := arg fmt (toString n)

/-- The call `QString(fmt).arg(n)` for an `int` argument: decimal rendering,
with a leading minus sign for a negative value. -/
def argInt (fmt : QString) (n : Int) : QString := arg fmt (toString n)

/-! ## Collaborators -/

/-- Modelled from the spec: the enumeration `QKinect::KinectStatus` is declared
outside this file; these are the four values of SensorStatus, under the names
`kinectStatus` compares against. -/
inductive KinectStatus where
  | Idle
  | Initializing
  | OkRun
  | ErrorStop
  deriving DecidableEq, Repr

/-- A call made by the window on one of its collaborators, in program order.
Label texts, pixmaps and the window's own members are state, not calls. -/
inductive Effect where
  | setupUi
  | addWidget (label : String)
  | addAction (text slot : String)
  | singleShot (msec : Nat) (slot : String)
  | connect (sender signal slot : String)
  | kreaderStart
  | kreaderStop
  | kreaderGetDepth
  | kreaderGetCamera
  | kreaderGetBodies
  | kreaderGetFrameID
  | kreaderGetTimestamp
  | writerStart (fname : QString) (port : Nat) (numuser : Nat)
  | writerStop
  | writerGetNumClients
  | grabKeyboard
  | releaseKeyboard
  | installEventFilter
  | removeEventFilter
  | critical (title text : QString)
  | close
  | queryTimer
  | deleteUi
  deriving DecidableEq, Repr

/-- The call is made on the sensor reader or on the writer. -/
def Effect.onCore : Effect → Bool
  | .kreaderStart | .kreaderStop | .kreaderGetDepth | .kreaderGetCamera
  | .kreaderGetBodies | .kreaderGetFrameID | .kreaderGetTimestamp
  | .writerStart _ _ _ | .writerStop | .writerGetNumClients => true
  | _ => false

/-- The call is one of the read accessors `getDepth`, `getCamera`, `getBodies`,
`getFrameID`, `getTimestamp` of the reader or `getNumClients` of the writer. -/
def Effect.isAccessor : Effect → Bool
  | .kreaderGetDepth | .kreaderGetCamera | .kreaderGetBodies
  | .kreaderGetFrameID | .kreaderGetTimestamp | .writerGetNumClients => true
  | _ => false

/-- The call is a critical message box. -/
def Effect.isCritical : Effect → Bool
  | .critical _ _ => true
  | _ => false

/-- The call is `writer.start`. -/
def Effect.isWriterStart : Effect → Bool
  | .writerStart _ _ _ => true
  | _ => false

/-- Call `a` occurs in the sequence `l`, and call `b` occurs in it after the
first occurrence of `a`. -/
def occursBefore (a b : Effect) (l : List Effect) : Bool :=
  decide (b ∈ (l.dropWhile (fun e => e != a)).drop 1)

/-- Library functions the window calls whose code is outside this file: the
`%.2f` rendering of a double by `QString::sprintf`, subtraction of doubles,
painting an image scaled into a target of a given size, and the OpenNI frame
counter. -/
structure Platform (R Img FPS : Type) where
  sprintf : String → R → QString
  sub : R → R → R
  drawImage : Nat × Nat → Img → Img
  xnFPSInit : Nat → FPS
  xnFPSMarkFrame : FPS → FPS
  xnFPSCalc : FPS → R × FPS

/-! ## Window state -/

/-- One of the two image holders `ui->labelDepth` and `ui->labelImage`. -/
structure ImageLabel (Img : Type) where
  minimumSize : Nat × Nat
  maximumSize : Nat × Nat
  size : Nat × Nat
  pixmap : Option Img

/-- The members of `MainWindow`: the kept parameters, the first-data flag and
timestamp, the frame counter, the eleven status-bar label texts and the two
image holders. -/
structure MainWindow (R Img FPS : Type) where
  progname : QString
  fname : QString
  numuser : Nat
  port : Nat
  firstData : Bool
  timeFirstData : R
  xnFPS : FPS
  sbKinectStatus : QString
  sbKinectFrame : QString
  sbKinectTime : QString
  sbKinectFPS : QString
  sbKinectNumBody : QString
  sbFile : QString
  sbServer : QString
  sbClients : QString
  sbSystime : QString
  sbRuntime : QString
  sbLabel : QString
  labelDepth : ImageLabel Img
  labelImage : ImageLabel Img

/-- What the constructor does not set itself: the contents of the members it
leaves uninitialised (`timeFirstData`, `xnFPS`) and the two image holders as
`setupUi` builds them. -/
structure Fresh (R Img FPS : Type) where
  timeFirstData : R
  xnFPS : FPS
  labelDepth : ImageLabel Img
  labelImage : ImageLabel Img

/-- What the collaborators hand back during one call of `kinectData`:
`timer k` is the reading of the `k`-th call of `PreciseTimer::QueryTimer()`
made during this call (counted from 0), `numClients` and `numClients2` are the
results of the first and of the second call of `writer.getNumClients()`. -/
structure DataIn (R Img B : Type) where
  timer : Nat → R
  depth : Img
  camera : Img
  bodies : List B
  frameID : Nat
  timestamp : R
  numClients : Int
  numClients2 : Int

section Slots

variable {R Img FPS B : Type}

/-- The constructor `MainWindow::MainWindow(progname, fname, numuser, port)`. -/
def MainWindow.new (progname fname : QString) (numuser port : Nat) (u : Fresh R Img FPS) :
    MainWindow R Img FPS × List Effect :=
  ({ progname := progname
     fname := fname
     numuser := numuser
     port := port
     firstData := true
     timeFirstData := u.timeFirstData
     xnFPS := u.xnFPS
     sbKinectStatus := ""
     sbKinectFrame := ""
     sbKinectTime := ""
     sbKinectFPS := ""
     sbKinectNumBody := ""
     sbFile := ""
     sbServer := ""
     sbClients := ""
     sbSystime := ""
     sbRuntime := ""
     sbLabel := ""
     labelDepth := u.labelDepth
     labelImage := u.labelImage },
   [.setupUi,
    .addWidget "sbKinectStatus", .addWidget "sbKinectFrame", .addWidget "sbKinectTime",
    .addWidget "sbKinectFPS", .addWidget "sbKinectNumBody", .addWidget "sbFile",
    .addWidget "sbServer", .addWidget "sbClients", .addWidget "sbSystime",
    .addWidget "sbRuntime", .addWidget "sbLabel",
    .addAction "&About" "about()", .addAction "&Help" "help()",
    .singleShot 0 "init()"])

/-- The destructor `MainWindow::~MainWindow()`: its calls, in program order. -/
def MainWindow.destroy (_w : MainWindow R Img FPS) : List Effect :=
  [.removeEventFilter, .releaseKeyboard, .kreaderStop, .writerStop, .deleteUi]

/-- The slot `MainWindow::key(int k)`. -/
def key (k : Int) (w : MainWindow R Img FPS) : MainWindow R Img FPS :=
  { w with sbLabel := argInt "L: %1" k }

/-- The calls of `init` up to and including `writer.start`, in program order:
what `init` has called when it tests the return code. -/
def initCalls (w : MainWindow R Img FPS) : List Effect :=
  [.connect "kreader" "dataNotification()" "kinectData()",
   .connect "kreader" "statusNotification(QKinect::KinectStatus)"
     "kinectStatus(QKinect::KinectStatus)",
   .connect "kreader" "userNotification(unsigned,bool)" "kinectUser(unsigned,bool)",
   .connect "kreader" "poseNotification(unsigned,QString)" "kinectPose(unsigned,QString)",
   .connect "kreader" "calibrationNotification(unsigned,QKinect::CalibrationStatus)"
     "kinectCalibration(unsigned,QKinect::CalibrationStatus)",
   .kreaderStart,
   .connect "ke" "Key(int)" "key(int)", .grabKeyboard, .installEventFilter,
   .writerStart w.fname w.port w.numuser]

/-- The text `err` built by `MainWindow::init` for the return code `rv`. -/
def errorText (rv : Int) (fname : QString) (port : Nat) : QString :=
  let err := ""
  let err := if Int.land rv 1 ≠ 0 then err ++ arg "Cannot write to file '%1'" fname else err
  let err := if Int.land rv 2 ≠ 0 then err ++ argNat "Cannot open server on port %1" port else err
  err

/-- The slot `MainWindow::init()`; `rv` is the value returned by
`writer.start(fname, port, numuser, &kreader, &ke)`. -/
def init (P : Platform R Img FPS) (rv : Int) (w : MainWindow R Img FPS) :
    MainWindow R Img FPS × List Effect :=
  let w := { w with
    labelDepth := { w.labelDepth with minimumSize := (400, 300), maximumSize := (640, 480) }
    labelImage := { w.labelImage with minimumSize := (400, 300), maximumSize := (640, 480) } }
  let tr := [Effect.connect "kreader" "dataNotification()" "kinectData()",
    .connect "kreader" "statusNotification(QKinect::KinectStatus)"
      "kinectStatus(QKinect::KinectStatus)",
    .connect "kreader" "userNotification(unsigned,bool)" "kinectUser(unsigned,bool)",
    .connect "kreader" "poseNotification(unsigned,QString)" "kinectPose(unsigned,QString)",
    .connect "kreader" "calibrationNotification(unsigned,QKinect::CalibrationStatus)"
      "kinectCalibration(unsigned,QKinect::CalibrationStatus)",
    .kreaderStart]
  let w := { w with xnFPS := P.xnFPSInit 180 }
  let tr := tr ++ [.connect "ke" "Key(int)" "key(int)", .grabKeyboard, .installEventFilter]
  let w := key 0 w
  let tr := tr ++ [.writerStart w.fname w.port w.numuser]
  if rv ≠ 0 then
    let err := errorText rv w.fname w.port
    (w, tr ++ [.critical w.progname err, .close])
  else
    let w := { w with
      sbServer := if w.port = 0 then "No server" else argNat "Port: %1" w.port }
    let w := { w with
      sbFile := if w.fname = "" then "No logging" else arg "Log: %1" w.fname }
    (w, tr)

/-- Lines 166-170 of `kinectData`: on the first data the flag is cleared and
the timer is read into `timeFirstData`. -/
def markFirstData (inp : DataIn R Img B) (w : MainWindow R Img FPS) : MainWindow R Img FPS :=
  if w.firstData then { w with firstData := false, timeFirstData := inp.timer 0 } else w

/-- Number of timer readings taken by the first-data block of `kinectData`. -/
def firstReads (w : MainWindow R Img FPS) : Nat :=
  if w.firstData then 1 else 0

/-- Lines 175-189 of `kinectData`: the depth and the camera image are painted
into targets of the size of their holders and shown. -/
def showImages (P : Platform R Img FPS) (inp : DataIn R Img B) (w : MainWindow R Img FPS) :
    MainWindow R Img FPS :=
  let w : MainWindow R Img FPS := { w with
    labelDepth := { w.labelDepth with
      pixmap := some (P.drawImage w.labelDepth.size inp.depth) } }
  { w with
    labelImage := { w.labelImage with
      pixmap := some (P.drawImage w.labelImage.size inp.camera) } }

/-- Lines 192-201 of `kinectData`: body count, frame mark, frame number, time
stamp, system time, run time and frame rate; `k` is the number of timer
readings taken before. -/
def showStatus (P : Platform R Img FPS) (inp : DataIn R Img B) (k : Nat)
    (w : MainWindow R Img FPS) : MainWindow R Img FPS :=
  let w : MainWindow R Img FPS := { w with sbKinectNumBody := argNat "Body: %1" inp.bodies.length }
  let w : MainWindow R Img FPS := { w with xnFPS := P.xnFPSMarkFrame w.xnFPS }
  let w : MainWindow R Img FPS := { w with sbKinectFrame := argNat "F#: %1" inp.frameID }
  let w : MainWindow R Img FPS := { w with sbKinectTime := P.sprintf "TS: %.2f" inp.timestamp }
  let w : MainWindow R Img FPS := { w with sbSystime := P.sprintf "Systime: %.2f" (inp.timer k) }
  let w : MainWindow R Img FPS := { w with
    sbRuntime := P.sprintf "Runtime: %.2f" (P.sub (inp.timer (k + 1)) w.timeFirstData) }
  { w with
    sbKinectFPS := P.sprintf "FPS: %.2f" (P.xnFPSCalc w.xnFPS).1
    xnFPS := (P.xnFPSCalc w.xnFPS).2 }

/-- Lines 203-206 of `kinectData`: the clients label. -/
def showClients (inp : DataIn R Img B) (w : MainWindow R Img FPS) : MainWindow R Img FPS :=
  if inp.numClients = -1 then
    { w with sbClients := "Clients: -" }
  else
    { w with sbClients := argInt "Clients: %1" inp.numClients2 }

/-- The calls `kinectData` makes on the timer, the reader and the writer, in
program order. -/
def dataCalls (inp : DataIn R Img B) (w : MainWindow R Img FPS) : List Effect :=
  (if w.firstData then [Effect.queryTimer] else [])
    ++ [.kreaderGetDepth, .kreaderGetCamera, .kreaderGetBodies, .kreaderGetFrameID,
        .kreaderGetTimestamp, .queryTimer, .queryTimer]
    ++ (if inp.numClients = -1 then [Effect.writerGetNumClients]
        else [.writerGetNumClients, .writerGetNumClients])

/-- The slot `MainWindow::kinectData()`. -/
def kinectData (P : Platform R Img FPS) (inp : DataIn R Img B) (w : MainWindow R Img FPS) :
    MainWindow R Img FPS × List Effect :=
  (showClients inp (showStatus P inp (firstReads w) (showImages P inp (markFirstData inp w))),
   dataCalls inp w)

/-- The slot `MainWindow::kinectStatus(QKinect::KinectStatus s)`. -/
def kinectStatus (s : KinectStatus) (w : MainWindow R Img FPS) :
    MainWindow R Img FPS × List Effect :=
  let str := "Kinect: "
  let str := if s = .Idle then str ++ "Idle" else str
  let str := if s = .Initializing then str ++ "Initializing" else str
  let str := if s = .OkRun then str ++ "Running" else str
  let str := if s = .ErrorStop then str ++ "Error" else str
  let w := { w with sbKinectStatus := str }
  if s = .ErrorStop then
    (w, [.critical w.progname "Cannot initialize the Kinect", .close])
  else
    (w, [])

/-- A sequence of `kinectData` calls, one per element of `inps`, in order. -/
def runData (P : Platform R Img FPS) (w : MainWindow R Img FPS) :
    List (DataIn R Img B) → MainWindow R Img FPS
  | [] => w
  | inp :: rest => runData P (kinectData P inp w).1 rest

end Slots

/-! ## A concrete instance -/

/-- A platform on which a double is an integer number of ticks, an image is a
list of pixel values and the frame counter counts marked frames. -/
def samplePlatform : Platform Int (List Nat) Nat where
  sprintf := fun fmt x => fmt ++ toString x
  sub := fun a b => a - b
  drawImage := fun _ img => img
  xnFPSInit := fun _ => 0
  xnFPSMarkFrame := fun n => n + 1
  xnFPSCalc := fun n => ((n : Int), n)

/-- Contents of a freshly built window on the sample platform. -/
def sampleFresh : Fresh Int (List Nat) Nat where
  timeFirstData := -7
  xnFPS := 5
  labelDepth := ⟨(0, 0), (1000, 1000), (400, 300), none⟩
  labelImage := ⟨(0, 0), (1000, 1000), (400, 300), none⟩

/-- The window built by `MainWindow("KinectLogger", "log.bin", 2, 9000)`. -/
def sampleWindow : MainWindow Int (List Nat) Nat :=
  (MainWindow.new "KinectLogger" "log.bin" 2 9000 sampleFresh).1

/-- A first frame: timer readings 100, 101, 102, two clients. -/
def sampleIn1 : DataIn Int (List Nat) Unit where
  timer := fun k => 100 + k
  depth := [1, 2]
  camera := [3, 4]
  bodies := [()]
  frameID := 1
  timestamp := 40
  numClients := 2
  numClients2 := 2

/-- A second frame: timer readings 200, 201, 202, network sink disabled. -/
def sampleIn2 : DataIn Int (List Nat) Unit where
  timer := fun k => 200 + k
  depth := [5]
  camera := [6]
  bodies := []
  frameID := 2
  timestamp := 80
  numClients := -1
  numClients2 := -1

/-- A reading of the calls as steps on a counter: a call on the reader or the
writer that is not a read accessor adds one, every other call leaves it. -/
def countMutations (e : Effect) (c : Nat) : Nat :=
  if e.onCore && !e.isAccessor then c + 1 else c

/-! ## Bits of the start result -/

theorem land_natCast (rv : Int) (k : Nat) :
    ∃ y : Nat, Int.land rv k = (y : Int) ∧ ∀ i, y.testBit i = (rv.testBit i && k.testBit i) := by
  cases rv with
  | ofNat m =>
    refine ⟨m &&& k, rfl, fun i => ?_⟩
    simp [Int.testBit, Nat.testBit_land]
  | negSucc m =>
    refine ⟨Nat.ldiff k m, rfl, fun i => ?_⟩
    simp [Int.testBit, Nat.testBit_ldiff, Bool.and_comm]

theorem nat_ne_zero_iff_testBit (y : Nat) : y ≠ 0 ↔ ∃ i, y.testBit i = true := by
  constructor
  · intro h
    by_contra hne
    push_neg at hne
    exact h (Nat.zero_of_testBit_eq_false (fun i => by simpa using hne i))
  · rintro ⟨i, hi⟩ rfl
    simp at hi

theorem testBit_one_eq (i : Nat) : (1 : Nat).testBit i = decide (i = 0) := by
  have h := @Nat.testBit_two_pow 0 i
  simp only [pow_zero] at h
  rw [h]
  simp [eq_comm]

theorem testBit_two_eq (i : Nat) : (2 : Nat).testBit i = decide (i = 1) := by
  have h := @Nat.testBit_two_pow 1 i
  simp only [pow_one] at h
  rw [h]
  simp [eq_comm]

theorem testBit_three_eq (i : Nat) : (3 : Nat).testBit i = decide (i < 2) := by
  have h := Nat.testBit_two_pow_sub_one 2 i
  simpa using h

/-- The test `rv&1` of `init` succeeds exactly when bit 0 of `rv` is set. -/
theorem land_one_ne_zero (rv : Int) : Int.land rv 1 ≠ 0 ↔ rv.testBit 0 = true := by
  obtain ⟨y, hy, hb⟩ := land_natCast rv 1
  have h1 : Int.land rv 1 = (y : Int) := hy
  rw [h1, Ne, Int.natCast_eq_zero, ← Ne, nat_ne_zero_iff_testBit]
  constructor
  · rintro ⟨i, hi⟩
    rw [hb, testBit_one_eq] at hi
    simp at hi
    rw [hi.2] at hi
    exact hi.1
  · intro h
    exact ⟨0, by rw [hb, testBit_one_eq, h]; rfl⟩

/-- The test `rv&2` of `init` succeeds exactly when bit 1 of `rv` is set. -/
theorem land_two_ne_zero (rv : Int) : Int.land rv 2 ≠ 0 ↔ rv.testBit 1 = true := by
  obtain ⟨y, hy, hb⟩ := land_natCast rv 2
  have h1 : Int.land rv 2 = (y : Int) := hy
  rw [h1, Ne, Int.natCast_eq_zero, ← Ne, nat_ne_zero_iff_testBit]
  constructor
  · rintro ⟨i, hi⟩
    rw [hb, testBit_two_eq] at hi
    simp at hi
    rw [hi.2] at hi
    exact hi.1
  · intro h
    exact ⟨1, by rw [hb, testBit_two_eq, h]; rfl⟩

/-- The value `rv&3` is nonzero exactly when bit 0 or bit 1 of `rv` is set. -/
theorem land_three_ne_zero (rv : Int) :
    Int.land rv 3 ≠ 0 ↔ (rv.testBit 0 = true ∨ rv.testBit 1 = true) := by
  obtain ⟨y, hy, hb⟩ := land_natCast rv 3
  have h1 : Int.land rv 3 = (y : Int) := hy
  rw [h1, Ne, Int.natCast_eq_zero, ← Ne, nat_ne_zero_iff_testBit]
  constructor
  · rintro ⟨i, hi⟩
    rw [hb, testBit_three_eq] at hi
    simp at hi
    obtain ⟨hi1, hi2⟩ := hi
    interval_cases i
    · exact Or.inl hi1
    · exact Or.inr hi1
  · rintro (h | h)
    · exact ⟨0, by rw [hb, testBit_three_eq, h]; rfl⟩
    · exact ⟨1, by rw [hb, testBit_three_eq, h]; rfl⟩

theorem land_three_ne_zero_iff (rv : Int) :
    Int.land rv 3 ≠ 0 ↔ (Int.land rv 1 ≠ 0 ∨ Int.land rv 2 ≠ 0) := by
  rw [land_three_ne_zero, land_one_ne_zero, land_two_ne_zero]

/-! ## Strings built by the window -/

theorem arg_cannot_write (f : QString) :
    arg "Cannot write to file '%1'" f = "Cannot write to file '" ++ f ++ "'" := by
  apply String.ext
  simp [arg, argChars]

theorem argNat_cannot_open (p : Nat) :
    argNat "Cannot open server on port %1" p = "Cannot open server on port " ++ toString p := by
  apply String.ext
  simp [argNat, arg, argChars]

theorem argNat_port (p : Nat) : argNat "Port: %1" p = "Port: " ++ toString p := by
  apply String.ext
  simp [argNat, arg, argChars]

theorem arg_log (f : QString) : arg "Log: %1" f = "Log: " ++ f := by
  apply String.ext
  simp [arg, argChars]

theorem argInt_clients (n : Int) : argInt "Clients: %1" n = "Clients: " ++ toString n := by
  apply String.ext
  simp [argInt, arg, argChars]

theorem digitChar_isDigit (n : Nat) (h : n < 10) : (Nat.digitChar n).isDigit = true := by
  interval_cases n <;> decide

theorem toDigitsCore_isDigit (f : Nat) : ∀ (n : Nat) (ds : List Char),
    (∀ c ∈ ds, c.isDigit = true) → ∀ c ∈ Nat.toDigitsCore 10 f n ds, c.isDigit = true := by
  induction f with
  | zero => intro n ds h; simpa [Nat.toDigitsCore] using h
  | succ f ih =>
    intro n ds h
    have hd : (Nat.digitChar (n % 10)).isDigit = true :=
      digitChar_isDigit _ (Nat.mod_lt _ (by decide))
    have hds : ∀ c ∈ Nat.digitChar (n % 10) :: ds, c.isDigit = true := by
      intro c hc
      rcases List.mem_cons.1 hc with rfl | hc
      · exact hd
      · exact h c hc
    simp only [Nat.toDigitsCore]
    split
    · exact hds
    · exact ih _ _ hds

theorem toDigitsCore_ne_nil (f n : Nat) (ds : List Char) :
    Nat.toDigitsCore 10 (f + 1) n ds ≠ [] := by
  induction f generalizing n ds with
  | zero => simp [Nat.toDigitsCore]
  | succ f ih =>
    rw [Nat.toDigitsCore]
    split
    · simp
    · exact ih _ _

/-- Every character of the decimal rendering of a natural number is a digit. -/
theorem toString_nat_isDigit (n : Nat) : ∀ c ∈ (toString n).data, c.isDigit = true := by
  intro c hc
  exact toDigitsCore_isDigit (n + 1) n [] (by simp) c hc

/-- The decimal rendering of a natural number is not empty. -/
theorem toString_nat_ne_nil (n : Nat) : (toString n).data ≠ [] :=
  toDigitsCore_ne_nil n n []

/-- The decimal rendering of an integer is never the lone minus sign. -/
theorem toString_int_ne_minus (n : Int) : toString n ≠ "-" := by
  intro h
  have hd : (toString n).data = ['-'] := by rw [h]
  cases n with
  | ofNat m =>
    have hm : (toString (Int.ofNat m)).data = (toString m).data := rfl
    rw [hm] at hd
    have hdig := toString_nat_isDigit m '-' (by rw [hd]; simp)
    revert hdig; decide
  | negSucc m =>
    have hm : (toString (Int.negSucc m)).data = '-' :: (toString (m + 1)).data := rfl
    rw [hm] at hd
    have h2 : (toString (m + 1)).data = [] := by simpa using hd
    exact toString_nat_ne_nil _ h2

/-- The text `init` builds, with the place markers filled in. -/
theorem errorText_eq (rv : Int) (fname : QString) (port : Nat) :
    errorText rv fname port =
      (if Int.land rv 1 ≠ 0 then "Cannot write to file '" ++ fname ++ "'" else "")
        ++ (if Int.land rv 2 ≠ 0 then "Cannot open server on port " ++ toString port else "") := by
  unfold errorText
  simp only [arg_cannot_write, argNat_cannot_open]
  by_cases h1 : Int.land rv 1 ≠ 0 <;> by_cases h2 : Int.land rv 2 ≠ 0 <;> simp [h1, h2]

section InitCalls

variable {R Img FPS : Type}

/-- The calls of `init` when `writer.start` fails. -/
theorem init_calls_failure (P : Platform R Img FPS) (rv : Int) (w : MainWindow R Img FPS)
    (h : rv ≠ 0) :
    (init P rv w).2 =
      initCalls w ++ [.critical w.progname (errorText rv w.fname w.port), .close] := by
  simp only [init, key, h, ne_eq, not_false_eq_true, if_true]
  rfl

/-- The calls of `init` when `writer.start` succeeds. -/
theorem init_calls_success (P : Platform R Img FPS) (w : MainWindow R Img FPS) :
    (init P 0 w).2 = initCalls w := by
  simp only [init, key, ne_eq, not_true_eq_false, if_false]
  rfl

/-- Up to `writer.start` no dialog is shown and no close is requested. -/
theorem initCalls_quiet (w : MainWindow R Img FPS) :
    ∀ e ∈ initCalls w, e.isCritical = false ∧ e ≠ Effect.close := by
  intro e he
  simp only [initCalls, List.mem_cons, List.mem_singleton, List.not_mem_nil, or_false] at he
  rcases he with rfl | rfl | rfl | rfl | rfl | rfl | rfl | rfl | rfl | rfl <;>
    exact ⟨rfl, by simp⟩

/-- The one call of `writer.start` passes the stored parameters. -/
theorem initCalls_writerStart (w : MainWindow R Img FPS) :
    Effect.writerStart w.fname w.port w.numuser ∈ initCalls w ∧
      ∀ e ∈ initCalls w, e.isWriterStart = true →
        e = .writerStart w.fname w.port w.numuser := by
  refine ⟨by simp [initCalls], ?_⟩
  intro e he
  simp only [initCalls, List.mem_cons, List.mem_singleton, List.not_mem_nil, or_false] at he
  rcases he with rfl | rfl | rfl | rfl | rfl | rfl | rfl | rfl | rfl | rfl <;>
    simp [Effect.isWriterStart]

end InitCalls

/-! ## The error text of `init` -/

theorem not_suffix_of_last (s p q : List Char) (c : Char) (hs : s ≠ [])
    (hd : ∀ x ∈ s, x.isDigit = true) (hc : c.isDigit = false) :
    ¬ (p ++ s) <:+ (q ++ [c]) := by
  rintro ⟨r, hr⟩
  have hrev := congrArg List.reverse hr
  simp only [List.reverse_append, List.reverse_cons, List.reverse_nil, List.nil_append,
    List.singleton_append] at hrev
  cases hsr : s.reverse with
  | nil => exact hs (by simpa using hsr)
  | cons d ds =>
    rw [hsr] at hrev
    simp only [List.append_assoc, List.cons_append, List.cons.injEq] at hrev
    have hmem : d ∈ s := by
      have : d ∈ s.reverse := by rw [hsr]; simp
      simpa using this
    have := hd d hmem
    rw [hrev.1, hc] at this
    exact Bool.false_ne_true this

theorem data_suffix_append (a b : String) : b.data <:+ (a ++ b).data := by
  rw [String.data_append]
  exact List.suffix_append _ _

/-- The file message opens the error text exactly when `rv&1` is nonzero. -/
theorem errorText_file_part (rv : Int) (fname : QString) (port : Nat) :
    ("Cannot write to file '" ++ fname ++ "'").data <+: (errorText rv fname port).data ↔
      Int.land rv 1 ≠ 0 := by
  rw [errorText_eq]
  by_cases h1 : Int.land rv 1 ≠ 0 <;> by_cases h2 : Int.land rv 2 ≠ 0 <;> simp [h1, h2]

/-- The server message closes the error text exactly when `rv&2` is nonzero. -/
theorem errorText_server_part (rv : Int) (fname : QString) (port : Nat) :
    ("Cannot open server on port " ++ toString port).data <:+ (errorText rv fname port).data ↔
      Int.land rv 2 ≠ 0 := by
  rw [errorText_eq]
  by_cases h2 : Int.land rv 2 ≠ 0
  · rw [if_pos h2]
    exact iff_of_true (data_suffix_append _ _) h2
  · rw [if_neg h2]
    refine iff_of_false ?_ h2
    by_cases h1 : Int.land rv 1 ≠ 0
    · rw [if_pos h1]
      simp only [String.data_append]
      rw [List.append_nil]
      exact not_suffix_of_last _ _ _ _ (toString_nat_ne_nil port) (toString_nat_isDigit port)
        (by decide)
    · rw [if_neg h1]
      simp [toString_nat_ne_nil]

/-- The error text is empty exactly when neither of the two tests succeeds. -/
theorem errorText_ne_empty (rv : Int) (fname : QString) (port : Nat) :
    errorText rv fname port ≠ "" ↔ Int.land rv 3 ≠ 0 := by
  rw [land_three_ne_zero_iff, errorText_eq, Ne, String.ext_iff]
  by_cases h1 : Int.land rv 1 ≠ 0 <;> by_cases h2 : Int.land rv 2 ≠ 0 <;> simp [h1, h2]

section InitClaims

variable {R Img FPS : Type}

/-- C1: in `MainWindow::init`, for every return code `rv` of `writer.start`, a
critical dialog is shown if and only if `rv` is not 0, and the close of the
window is requested if and only if `rv` is not 0.  When `rv` is not 0 the calls
of `init` end with the dialog and the close request, and the server and file
labels keep their texts; when `rv` is 0 no call of `init` is a dialog or a
close request. -/
theorem init_dialog_and_close_iff_start_failed (P : Platform R Img FPS) (rv : Int)
    (w : MainWindow R Img FPS) :
    ((∃ e ∈ (init P rv w).2, e.isCritical = true) ↔ rv ≠ 0) ∧
    (Effect.close ∈ (init P rv w).2 ↔ rv ≠ 0) ∧
    (rv ≠ 0 →
      (init P rv w).2 =
          initCalls w ++ [.critical w.progname (errorText rv w.fname w.port), .close] ∧
        (init P rv w).1.sbServer = w.sbServer ∧ (init P rv w).1.sbFile = w.sbFile) ∧
    (rv = 0 → ∀ e ∈ (init P rv w).2, e.isCritical = false ∧ e ≠ Effect.close) := by
  by_cases h : rv = 0
  · subst h
    have hq : ∀ e ∈ (init P 0 w).2, e.isCritical = false ∧ e ≠ Effect.close := by
      rw [init_calls_success]
      exact initCalls_quiet w
    refine ⟨?_, ?_, fun h0 => absurd rfl h0, fun _ => hq⟩
    · refine iff_of_false ?_ (by simp)
      rintro ⟨e, he, hc⟩
      rw [(hq e he).1] at hc
      exact Bool.false_ne_true hc
    · exact iff_of_false (fun hc => (hq _ hc).2 rfl) (by simp)
  · have ht := init_calls_failure P rv w h
    refine ⟨?_, ?_, fun _ => ⟨ht, ?_, ?_⟩, fun h0 => absurd h0 h⟩
    · refine iff_of_true ⟨.critical w.progname (errorText rv w.fname w.port), ?_, rfl⟩ h
      rw [ht]
      simp
    · refine iff_of_true ?_ h
      rw [ht]
      simp
    · simp [init, key, h]
    · simp [init, key, h]

/-- C2: for every nonzero return code `rv`, file name and port, the one
critical dialog of `init` shows the text that is the file message
`Cannot write to file '<fname>'` when `rv&1` is nonzero (bit 0 of `rv` is set),
else nothing, followed by the server message `Cannot open server on port <port>`
when `rv&2` is nonzero (bit 1 of `rv` is set), else nothing.  The file message
opens the text exactly when `rv&1` is nonzero and the server message closes it
exactly when `rv&2` is nonzero, each whatever the other bit is. -/
theorem init_error_text_decodes_bits (P : Platform R Img FPS) (rv : Int)
    (w : MainWindow R Img FPS) (h : rv ≠ 0) :
    Effect.critical w.progname (errorText rv w.fname w.port) ∈ (init P rv w).2 ∧
    (∀ t x, Effect.critical t x ∈ (init P rv w).2 → x = errorText rv w.fname w.port) ∧
    errorText rv w.fname w.port =
      (if Int.land rv 1 ≠ 0 then "Cannot write to file '" ++ w.fname ++ "'" else "")
        ++ (if Int.land rv 2 ≠ 0 then "Cannot open server on port " ++ toString w.port
            else "") ∧
    (("Cannot write to file '" ++ w.fname ++ "'").data <+: (errorText rv w.fname w.port).data ↔
      Int.land rv 1 ≠ 0) ∧
    (("Cannot open server on port " ++ toString w.port).data <:+
        (errorText rv w.fname w.port).data ↔ Int.land rv 2 ≠ 0) ∧
    (Int.land rv 1 ≠ 0 ↔ rv.testBit 0 = true) ∧
    (Int.land rv 2 ≠ 0 ↔ rv.testBit 1 = true) := by
  have ht := init_calls_failure P rv w h
  refine ⟨?_, ?_, errorText_eq _ _ _, errorText_file_part _ _ _, errorText_server_part _ _ _,
    land_one_ne_zero rv, land_two_ne_zero rv⟩
  · rw [ht]
    simp
  · intro t x hx
    rw [ht, List.mem_append] at hx
    rcases hx with hx | hx
    · have := (initCalls_quiet w _ hx).1
      simp [Effect.isCritical] at this
    · simp at hx
      exact hx.2

/-- C2, at a concrete input: return code 3 on the sample window shows both
messages. -/
theorem init_error_text_decodes_bits_witness :
    (3 : Int) ≠ 0 ∧
    Effect.critical "KinectLogger" (errorText 3 "log.bin" 9000) ∈
      (init samplePlatform 3 sampleWindow).2 ∧
    errorText 3 "log.bin" 9000 =
      "Cannot write to file 'log.bin'Cannot open server on port 9000" :=
  ⟨by decide, (init_error_text_decodes_bits samplePlatform 3 sampleWindow (by decide)).1,
    by decide⟩

/-- C10: for every return code `rv` that is not 0, `init` shows the critical
dialog and requests the close; when moreover `rv&3` is 0 the text it shows is
the empty string, and in general the text shown is non-empty exactly when
`rv&3` is not 0. -/
theorem init_error_text_empty_iff_low_bits_clear (P : Platform R Img FPS) (rv : Int)
    (w : MainWindow R Img FPS) (h : rv ≠ 0) :
    (∃ x, Effect.critical w.progname x ∈ (init P rv w).2) ∧
    Effect.close ∈ (init P rv w).2 ∧
    (Int.land rv 3 = 0 → Effect.critical w.progname "" ∈ (init P rv w).2) ∧
    (∀ t x, Effect.critical t x ∈ (init P rv w).2 → (x ≠ "" ↔ Int.land rv 3 ≠ 0)) := by
  have ht := init_calls_failure P rv w h
  have hmem : Effect.critical w.progname (errorText rv w.fname w.port) ∈ (init P rv w).2 := by
    rw [ht]
    simp
  refine ⟨⟨_, hmem⟩, ?_, ?_, ?_⟩
  · rw [ht]
    simp
  · intro h3
    have he : errorText rv w.fname w.port = "" := by
      by_contra hne
      exact (errorText_ne_empty rv w.fname w.port).1 hne h3
    rw [← he]
    exact hmem
  · intro t x hx
    rw [ht, List.mem_append] at hx
    rcases hx with hx | hx
    · have := (initCalls_quiet w _ hx).1
      simp [Effect.isCritical] at this
    · simp at hx
      rw [hx.2]
      exact errorText_ne_empty rv w.fname w.port

/-- C10, at concrete inputs: return codes 4 and -4 on the sample window each
show a dialog with the empty text and request the close. -/
theorem init_error_text_empty_iff_low_bits_clear_witness :
    (4 : Int) ≠ 0 ∧ Int.land 4 3 = 0 ∧
    Effect.critical "KinectLogger" "" ∈ (init samplePlatform 4 sampleWindow).2 ∧
    Effect.close ∈ (init samplePlatform 4 sampleWindow).2 ∧
    (-4 : Int) ≠ 0 ∧ Int.land (-4) 3 = 0 ∧
    Effect.critical "KinectLogger" "" ∈ (init samplePlatform (-4) sampleWindow).2 ∧
    Effect.close ∈ (init samplePlatform (-4) sampleWindow).2 :=
  have hneg : Int.land (-4) 3 = 0 :=
    not_not.1 (fun hne => absurd ((land_three_ne_zero (-4)).1 hne) (by decide))
  ⟨by decide, by decide,
    (init_error_text_empty_iff_low_bits_clear samplePlatform 4 sampleWindow (by decide)).2.2.1
      (by decide),
    (init_error_text_empty_iff_low_bits_clear samplePlatform 4 sampleWindow (by decide)).2.1,
    by decide, hneg,
    (init_error_text_empty_iff_low_bits_clear samplePlatform (-4) sampleWindow (by decide)).2.2.1
      hneg,
    (init_error_text_empty_iff_low_bits_clear samplePlatform (-4) sampleWindow (by decide)).2.1⟩

/-- The server label after a successful start. -/
theorem init_success_sbServer (P : Platform R Img FPS) (w : MainWindow R Img FPS) :
    (init P 0 w).1.sbServer =
      if w.port = 0 then "No server" else "Port: " ++ toString w.port := by
  simp [init, key, argNat_port]

/-- The file label after a successful start. -/
theorem init_success_sbFile (P : Platform R Img FPS) (w : MainWindow R Img FPS) :
    (init P 0 w).1.sbFile = if w.fname = "" then "No logging" else "Log: " ++ w.fname := by
  simp [init, key, arg_log]

theorem port_text_ne_no_server (p : Nat) : "Port: " ++ toString p ≠ "No server" := by
  rw [Ne, String.ext_iff]
  simp

theorem log_text_ne_no_logging (f : QString) : "Log: " ++ f ≠ "No logging" := by
  rw [Ne, String.ext_iff]
  simp

/-- C6: after a successful start (`writer.start` returned 0), for every file
name and port, the server label reads `No server` if and only if the port is 0
and reads `Port: <port>` otherwise; the file label reads `No logging` if and
only if the file name is empty and reads `Log: <fname>` otherwise.  The server
label is the same for two windows with the same port and the file label is the
same for two windows with the same file name, whatever their other members. -/
theorem init_success_labels (P : Platform R Img FPS) (w : MainWindow R Img FPS) :
    ((init P 0 w).1.sbServer = "No server" ↔ w.port = 0) ∧
    (w.port ≠ 0 → (init P 0 w).1.sbServer = "Port: " ++ toString w.port) ∧
    ((init P 0 w).1.sbFile = "No logging" ↔ w.fname = "") ∧
    (w.fname ≠ "" → (init P 0 w).1.sbFile = "Log: " ++ w.fname) ∧
    (∀ w2 : MainWindow R Img FPS, w2.port = w.port →
      (init P 0 w2).1.sbServer = (init P 0 w).1.sbServer) ∧
    (∀ w2 : MainWindow R Img FPS, w2.fname = w.fname →
      (init P 0 w2).1.sbFile = (init P 0 w).1.sbFile) := by
  refine ⟨?_, ?_, ?_, ?_, ?_, ?_⟩
  · rw [init_success_sbServer]
    by_cases hp : w.port = 0
    · simp [hp]
    · simp only [hp, if_false, iff_false]
      exact port_text_ne_no_server _
  · intro hp
    rw [init_success_sbServer, if_neg hp]
  · rw [init_success_sbFile]
    by_cases hf : w.fname = ""
    · simp [hf]
    · simp only [hf, if_false, iff_false]
      exact log_text_ne_no_logging _
  · intro hf
    rw [init_success_sbFile, if_neg hf]
  · intro w2 h2
    rw [init_success_sbServer, init_success_sbServer, h2]
  · intro w2 h2
    rw [init_success_sbFile, init_success_sbFile, h2]

/-- C9: for every constructor argument tuple `(progname, fname, numuser, port)`
and every return code, the constructed window stores `fname`, `port` and
`numuser`, and `init` on it calls `writer.start` with the file name `fname`,
the port `port` and, as third argument, the user count `numuser`; it makes no
other call of `writer.start`. -/
theorem init_starts_writer_with_constructor_arguments (P : Platform R Img FPS) (rv : Int)
    (progname fname : QString) (numuser port : Nat) (u : Fresh R Img FPS) :
    (MainWindow.new progname fname numuser port u).1.fname = fname ∧
    (MainWindow.new progname fname numuser port u).1.port = port ∧
    (MainWindow.new progname fname numuser port u).1.numuser = numuser ∧
    Effect.writerStart fname port numuser ∈
      (init P rv (MainWindow.new progname fname numuser port u).1).2 ∧
    (∀ e ∈ (init P rv (MainWindow.new progname fname numuser port u).1).2,
      e.isWriterStart = true → e = .writerStart fname port numuser) ∧
    ((init P rv (MainWindow.new progname fname numuser port u).1).2.filter
      Effect.isWriterStart).length = 1 := by
  refine ⟨rfl, rfl, rfl, ?_⟩
  have hw := initCalls_writerStart (MainWindow.new progname fname numuser port u).1
  have hfn : (MainWindow.new progname fname numuser port u).1.fname = fname := rfl
  have hpt : (MainWindow.new progname fname numuser port u).1.port = port := rfl
  have hnu : (MainWindow.new progname fname numuser port u).1.numuser = numuser := rfl
  rw [hfn, hpt, hnu] at hw
  by_cases h : rv = 0
  · subst h
    rw [init_calls_success]
    exact ⟨hw.1, hw.2, rfl⟩
  · rw [init_calls_failure P rv _ h]
    refine ⟨List.mem_append_left _ hw.1, ?_, rfl⟩
    intro e he
    rw [List.mem_append] at he
    rcases he with he | he
    · exact hw.2 e he
    · simp only [List.mem_cons, List.mem_singleton, List.not_mem_nil, or_false] at he
      rcases he with rfl | rfl <;> simp [Effect.isWriterStart]

end InitClaims

/-! ## The data slot -/

section DataClaims

variable {R Img FPS B : Type}

/-- The clients label after `kinectData`. -/
theorem kinectData_sbClients (P : Platform R Img FPS) (inp : DataIn R Img B)
    (w : MainWindow R Img FPS) :
    (kinectData P inp w).1.sbClients =
      if inp.numClients = -1 then "Clients: -" else "Clients: " ++ toString inp.numClients2 := by
  simp only [kinectData, showClients]
  split <;> simp [argInt_clients]

theorem clients_text_ne_dash (n : Int) : "Clients: " ++ toString n ≠ "Clients: -" := by
  intro h
  have hd := congrArg String.data h
  rw [String.data_append] at hd
  have hl : ("Clients: -" : String).data = ("Clients: " : String).data ++ ("-" : String).data :=
    rfl
  rw [hl] at hd
  exact toString_int_ne_minus n (String.ext (List.append_cancel_left hd))

/-- C3: in `MainWindow::kinectData`, for every value `n` returned by both calls
of `writer.getNumClients()`, the clients label is set to `Clients: -` if and
only if `n` is the disabled sentinel -1, and otherwise it is set to `Clients: `
followed by the decimal rendering of `n`. -/
theorem kinectData_clients_label (P : Platform R Img FPS) (inp : DataIn R Img B)
    (w : MainWindow R Img FPS) (n : Int) (h1 : inp.numClients = n) (h2 : inp.numClients2 = n) :
    ((kinectData P inp w).1.sbClients = "Clients: -" ↔ n = -1) ∧
    (n ≠ -1 → (kinectData P inp w).1.sbClients = "Clients: " ++ toString n) := by
  rw [kinectData_sbClients, h1, h2]
  by_cases hn : n = -1
  · simp [hn]
  · simp only [hn, if_false, iff_false, ne_eq, not_false_eq_true, forall_true_left, and_true]
    exact clients_text_ne_dash n

/-- C3, at a concrete input: with two clients the label reads `Clients: 2`. -/
theorem kinectData_clients_label_witness :
    sampleIn1.numClients = 2 ∧ sampleIn1.numClients2 = 2 ∧
    (kinectData samplePlatform sampleIn1 sampleWindow).1.sbClients = "Clients: " ++ toString (2 : Int) :=
  ⟨rfl, rfl,
    (kinectData_clients_label samplePlatform sampleIn1 sampleWindow 2 rfl rfl).2 (by decide)⟩

/-- The constructor leaves the first-data flag up. -/
theorem new_firstData (progname fname : QString) (numuser port : Nat) (u : Fresh R Img FPS) :
    (MainWindow.new progname fname numuser port u).1.firstData = true := rfl

/-- After `kinectData` the first-data flag is down. -/
theorem kinectData_firstData (P : Platform R Img FPS) (inp : DataIn R Img B)
    (w : MainWindow R Img FPS) : (kinectData P inp w).1.firstData = false := by
  simp only [kinectData, showClients, showStatus, showImages, markFirstData]
  cases hf : w.firstData <;> split <;> simp [hf]

/-- The first-data timestamp after `kinectData`: the first timer reading of
the call when the flag was up, the old value otherwise. -/
theorem kinectData_timeFirstData (P : Platform R Img FPS) (inp : DataIn R Img B)
    (w : MainWindow R Img FPS) :
    (kinectData P inp w).1.timeFirstData =
      if w.firstData then inp.timer 0 else w.timeFirstData := by
  simp only [kinectData, showClients, showStatus, showImages, markFirstData]
  cases hf : w.firstData <;> split <;> simp

/-- Once the flag is down, no sequence of `kinectData` calls changes the flag or
the timestamp. -/
theorem runData_after_first (P : Platform R Img FPS) (inps : List (DataIn R Img B)) :
    ∀ w : MainWindow R Img FPS, w.firstData = false →
      (runData P w inps).timeFirstData = w.timeFirstData ∧
        (runData P w inps).firstData = false := by
  induction inps with
  | nil => intro w hw; exact ⟨rfl, hw⟩
  | cons inp rest ih =>
    intro w hw
    have hstep := ih (kinectData P inp w).1 (kinectData_firstData P inp w)
    rw [kinectData_timeFirstData, hw] at hstep
    exact hstep

/-- C7: starting from a window whose first-data flag is up, as the constructor
leaves it, for every non-empty sequence of `kinectData` calls the first-data
timestamp at the end is the timer reading taken first in the first call, and
the flag is down; the sequence being arbitrary, this holds after every call. -/
theorem firstData_timestamp_set_once (P : Platform R Img FPS) (w : MainWindow R Img FPS)
    (inp : DataIn R Img B) (rest : List (DataIn R Img B)) (h : w.firstData = true) :
    (runData P w (inp :: rest)).timeFirstData = inp.timer 0 ∧
    (runData P w (inp :: rest)).firstData = false := by
  have hstep := runData_after_first P rest (kinectData P inp w).1 (kinectData_firstData P inp w)
  rw [kinectData_timeFirstData, h] at hstep
  exact hstep

/-- C7, at a concrete input: two frames on the constructed sample window; the
second frame, whose timer reads 200, leaves the timestamp at the first
reading, 100, of the first frame. -/
theorem firstData_timestamp_set_once_witness :
    sampleWindow.firstData = true ∧ sampleIn1.timer 0 = 100 ∧ sampleIn2.timer 0 = 200 ∧
    (runData samplePlatform sampleWindow [sampleIn1, sampleIn2]).timeFirstData =
      sampleIn1.timer 0 ∧
    (runData samplePlatform sampleWindow [sampleIn1, sampleIn2]).firstData = false :=
  ⟨rfl, by decide, by decide,
    firstData_timestamp_set_once samplePlatform sampleWindow sampleIn1 [sampleIn2] rfl⟩

/-- The calls of `kinectData`. -/
theorem kinectData_calls (P : Platform R Img FPS) (inp : DataIn R Img B)
    (w : MainWindow R Img FPS) : (kinectData P inp w).2 = dataCalls inp w := rfl

/-- Every call of `kinectData` is a read accessor or is not made on the reader
or the writer. -/
theorem dataCalls_observe (inp : DataIn R Img B) (w : MainWindow R Img FPS) :
    ∀ e ∈ dataCalls inp w, e.onCore = false ∨ e.isAccessor = true := by
  intro e he
  simp only [dataCalls, List.mem_append] at he
  rcases he with (he | he) | he
  · split at he
    · simp only [List.mem_singleton] at he
      subst he
      exact Or.inl rfl
    · simp at he
  · simp only [List.mem_cons, List.mem_singleton, List.not_mem_nil, or_false] at he
    rcases he with rfl | rfl | rfl | rfl | rfl | rfl | rfl <;> simp [Effect.onCore, Effect.isAccessor]
  · split at he
    · simp only [List.mem_singleton] at he
      subst he
      exact Or.inr rfl
    · simp only [List.mem_cons, List.mem_singleton, List.not_mem_nil, or_false] at he
      rcases he with rfl | rfl <;> exact Or.inr rfl

theorem foldl_sem_id {C : Type} (sem : Effect → C → C) (l : List Effect)
    (hl : ∀ e ∈ l, ∀ c, sem e c = c) (c : C) : l.foldl (fun c e => sem e c) c = c := by
  induction l generalizing c with
  | nil => rfl
  | cons e l ih =>
    rw [List.foldl_cons, hl e (List.mem_cons_self _ _)]
    exact ih (fun e2 he2 => hl e2 (List.mem_cons_of_mem _ he2)) c

/-- C8: `kinectData` calls nothing on the sensor reader and the writer except
the read accessors `getDepth`, `getCamera`, `getBodies`, `getFrameID`,
`getTimestamp` and `getNumClients`.  So under every reading `sem` of the calls
as steps on a state of the reader and writer, in which the read accessors and
the calls made on others leave that state as it is, the state after the calls
of `kinectData` is the state before; and the parameters kept by the window are
unchanged. -/
theorem kinectData_only_observes_core (P : Platform R Img FPS) (inp : DataIn R Img B)
    (w : MainWindow R Img FPS) (C : Type) (sem : Effect → C → C)
    (hacc : ∀ e, e.isAccessor = true → ∀ c, sem e c = c)
    (hout : ∀ e, e.onCore = false → ∀ c, sem e c = c) (c : C) :
    (∀ e ∈ (kinectData P inp w).2, e.onCore = true → e.isAccessor = true) ∧
    (kinectData P inp w).2.foldl (fun c e => sem e c) c = c ∧
    (kinectData P inp w).1.progname = w.progname ∧
    (kinectData P inp w).1.fname = w.fname ∧
    (kinectData P inp w).1.numuser = w.numuser ∧
    (kinectData P inp w).1.port = w.port := by
  have hobs := dataCalls_observe inp w
  refine ⟨?_, ?_, ?_, ?_, ?_, ?_⟩
  · intro e he hc
    rcases hobs e he with h | h
    · rw [h] at hc
      exact absurd hc Bool.false_ne_true
    · exact h
  · rw [kinectData_calls]
    apply foldl_sem_id
    intro e he
    rcases hobs e he with h | h
    · exact hout e h
    · exact hacc e h
  all_goals
    simp only [kinectData, showClients, showStatus, showImages, markFirstData]
    cases hf : w.firstData <;> split <;> simp

/-- C8, at a concrete input: counting the calls on the reader and the writer
that are not read accessors, the first frame on the sample window counts none. -/
theorem kinectData_only_observes_core_witness :
    (∀ e : Effect, e.isAccessor = true → ∀ c, countMutations e c = c) ∧
    (∀ e : Effect, e.onCore = false → ∀ c, countMutations e c = c) ∧
    (kinectData samplePlatform sampleIn1 sampleWindow).2.foldl
      (fun c e => countMutations e c) 0 = 0 :=
  ⟨fun e h c => by simp [countMutations, h], fun e h c => by simp [countMutations, h],
    (kinectData_only_observes_core samplePlatform sampleIn1 sampleWindow Nat countMutations
      (fun e h c => by simp [countMutations, h]) (fun e h c => by simp [countMutations, h]) 0).2.1⟩

end DataClaims

/-! ## The status slot and the destructor -/

section StatusClaims

variable {R Img FPS : Type}

/-- C5: in `MainWindow::kinectStatus`, for every sensor status `s` among Idle,
Initializing, OkRun and ErrorStop, a critical dialog is shown if and only if
`s` is ErrorStop and the close of the window is requested if and only if `s` is
ErrorStop; for ErrorStop the calls are the dialog, then the close request; for
the three other values the slot makes no call at all.  For every `s` the only
member of the window that changes is the status label. -/
theorem kinectStatus_terminates_iff_errorStop (s : KinectStatus) (w : MainWindow R Img FPS) :
    ((∃ e ∈ (kinectStatus s w).2, e.isCritical = true) ↔ s = .ErrorStop) ∧
    (Effect.close ∈ (kinectStatus s w).2 ↔ s = .ErrorStop) ∧
    (s = .ErrorStop →
      (kinectStatus s w).2 = [.critical w.progname "Cannot initialize the Kinect", .close]) ∧
    (s ≠ .ErrorStop → (kinectStatus s w).2 = []) ∧
    (kinectStatus s w).1 = { w with sbKinectStatus := (kinectStatus s w).1.sbKinectStatus } ∧
    (kinectStatus s w).1.sbKinectStatus =
      (match s with
        | .Idle => "Kinect: Idle"
        | .Initializing => "Kinect: Initializing"
        | .OkRun => "Kinect: Running"
        | .ErrorStop => "Kinect: Error") := by
  cases s <;> simp [kinectStatus, Effect.isCritical]

/-- The calls of the destructor, whatever the window. -/
theorem destroy_calls (w : MainWindow R Img FPS) :
    MainWindow.destroy w =
      [.removeEventFilter, .releaseKeyboard, .kreaderStop, .writerStop, .deleteUi] := rfl

/-- C4, as the code has it: in the destructor's sequence of calls
`kreader.stop()` occurs before `writer.stop()`, each occurs once, and
`writer.stop()` does not occur before `kreader.stop()`: the device is stopped
first, the writer sinks after it. -/
theorem destroy_stops_reader_before_writer (w : MainWindow R Img FPS) :
    occursBefore .kreaderStop .writerStop (MainWindow.destroy w) = true ∧
    occursBefore .writerStop .kreaderStop (MainWindow.destroy w) = false ∧
    (MainWindow.destroy w).count .kreaderStop = 1 ∧
    (MainWindow.destroy w).count .writerStop = 1 := by
  rw [destroy_calls]
  decide

end StatusClaims

/-- C4, refuted as stated: in the destructor's sequence of calls on the sample
window `writer.stop()` does not occur before `kreader.stop()`. -/
theorem destroy_writer_stop_first_counterexample :
    MainWindow.destroy sampleWindow =
      [.removeEventFilter, .releaseKeyboard, .kreaderStop, .writerStop, .deleteUi] ∧
    occursBefore .writerStop .kreaderStop (MainWindow.destroy sampleWindow) = false := by
  refine ⟨rfl, ?_⟩
  decide

end KinectLogger
